import Mathlib

/-!
Verification development for the UrbanX / NASA hackathon frontend
(`src/unnamed/part_003`, mirrored by `src/my-app/src/App.jsx`).

Scores are modelled as exact rationals (`ℚ`); JavaScript objects used as
string-keyed maps are modelled as association lists `List (String × α)`,
with object-spread key update modelled by `setKey`.  Fallible JavaScript
code (property access on a possibly missing object) is modelled with
`Option`.  The Cesium / Three.js rendering, terrain sampling and entity
animation are presentation only and are not part of the scoring state;
where the drop handler records data derived from them (entity ids, the
terrain-sampled drop position) those appear as explicit parameters.
-/

/-- JavaScript `Math.max(0, Math.min(100, x))` as used in
`transformBackendData` (part_003, lines 56-59). -/
def jsClamp (x : ℚ) : ℚ := max 0 (min 100 x)

/-- JavaScript `Math.round` on the (small, exactly representable) score
values: round half toward positive infinity, `⌊x + 1/2⌋`. -/
def jsRound (x : ℚ) : ℚ := ((⌊x + 1/2⌋ : ℤ) : ℚ)

/-- JavaScript `Number.prototype.toFixed(1)` on the score values that the
drop handler formats (all of them nonnegative rationals): one decimal
digit, rounding half up. -/
def toFixed1 (q : ℚ) : String :=
  let n : ℤ := ⌊q * 10 + 1/2⌋
  toString (n / 10) ++ "." ++ toString (n % 10)

/-- JavaScript object spread `{ ...m, [k]: v }`: replace the binding of
`k` in place if present, otherwise append it. -/
def setKey {α : Type} : List (String × α) → String → α → List (String × α)
  | [], k, v => [(k, v)]
  | (k', v') :: rest, k, v =>
      if k' = k then (k, v) :: rest else (k', v') :: setKey rest k v

/-- JavaScript `o[k] || d` for a string-valued lookup, as in the
`color_codes[regionId]` read with default `yellow`: a missing key or an
empty (falsy) string yields the default. -/
def jsOrDefault (o : Option String) (d : String) : String :=
  match o with
  | some s => if s = "" then d else s
  | none => d

/-- One entry of `PALETTE_ITEMS` (part_003, lines 22-26). -/
structure PaletteItem where
  id : String
  name : String
  icon : String
  type : String
  placement : String
  modelUri : String
  scale : ℚ
  impactFactor : ℚ
deriving DecidableEq

/-- `PALETTE_ITEMS[0]`: the Add Park item. -/
def treesItem : PaletteItem :=
  { id := "trees", name := "Add Park", icon := "🌳", type := "vegetation",
    placement := "ground", modelUri := "/tree.glb", scale := 200.5,
    impactFactor := 2 }

/-- `PALETTE_ITEMS[1]`: the Add Reflective Surfaces item. -/
def coolRoofItem : PaletteItem :=
  { id := "cool_roof", name := "Add Reflective Surfaces", icon := "⬜",
    type := "building", placement := "rooftop", modelUri := "/mirror.glb",
    scale := 2/5, impactFactor := 1 }

/-- `PALETTE_ITEMS[2]`: the Add Water Body item. -/
def waterBodyItem : PaletteItem :=
  { id := "water_body", name := "Add Water Body", icon := "💧",
    type := "water", placement := "ground", modelUri := "/cartoon_pond.glb",
    scale := 3, impactFactor := 11/5 }

/-- The `PALETTE_ITEMS` constant (part_003, lines 22-26). -/
def PALETTE_ITEMS : List PaletteItem := [treesItem, coolRoofItem, waterBodyItem]

/-- The record resolved by `mockAIScoring` (part_003, lines 29-39). -/
structure AIScore where
  overall_score : ℚ
  sustainability : ℚ
  livability : ℚ
  efficiency : ℚ
  aesthetics : ℚ
  summary : String
deriving DecidableEq

/-- `mockAIScoring` (part_003, lines 29-39).  `state` is the `cityState`
object (`Object.values` is projection to the values of the association
list); `randomDraw` is the value returned by the `Math.random()` call in
the `aesthetics` field, so the model makes the hidden randomness of the source
an explicit input. -/
def mockAIScoring (randomDraw : ℚ) (state : List (String × PaletteItem)) : AIScore :=
  let items := state.map Prod.snd
  let greenCount : ℚ :=
    ((items.filter fun i => i.type == "vegetation" || i.type == "water").length : ℚ)
  let energyCount : ℚ := ((items.filter fun i => i.type == "energy").length : ℚ)
  let score := min 100 (70 + greenCount * 3 + energyCount * 5)
  { overall_score := score,
    sustainability := min 100 (70 + greenCount * 4 + energyCount * 2),
    livability := min 100 (75 + greenCount * 2),
    efficiency := min 100 (70 + energyCount * 8),
    aesthetics := ((⌊randomDraw * 20⌋ : ℤ) : ℚ) + 75,
    summary :=
      if score > 85 then "Excellent sustainability improvements!"
      else "Consider adding more green spaces or renewable energy." }

/-- The `feature_scores` field of the backend payload: per-feature maps from
region id to z-score.  A region missing from a map is the "undefined"
case of the `feature_scores.aqi[regionId]` access in the source. -/
structure FeatureScores where
  aqi : List (String × ℚ)
  temperature : List (String × ℚ)
  water_vapour : List (String × ℚ)
deriving DecidableEq

/-- The backend payload consumed by `transformBackendData`. -/
structure BackendData where
  feature_scores : FeatureScores
  overall_scores : List (String × ℚ)
  color_codes : List (String × String)
deriving DecidableEq

/-- One entry of the frontend `regionalScores` map, as built by
`transformBackendData` (part_003, lines 61-68). -/
structure RegionScore where
  health_score : ℚ
  name : String
  aqi_score : ℚ
  temperature_score : ℚ
  humidity_score : ℚ
  color_code : String
deriving DecidableEq

/-- `transformBackendData` (part_003, lines 42-73).  Iterates the keys of
`overall_scores`; each per-feature z-score is read with `|| 0` (a missing
value is replaced by `0`, modelled by `Option.getD 0`, which also agrees
with JavaScript on a stored falsy `0`); each score is `50 + z * 25`
clamped to `[0, 100]` and then rounded. -/
def transformBackendData (bd : BackendData) : List (String × RegionScore) :=
  bd.overall_scores.map fun p =>
    let regionId := p.1
    let zScore := p.2
    let aqiZScore := (bd.feature_scores.aqi.lookup regionId).getD 0
    let tempZScore := (bd.feature_scores.temperature.lookup regionId).getD 0
    let humidityZScore := (bd.feature_scores.water_vapour.lookup regionId).getD 0
    let healthScore := jsClamp (50 + zScore * 25)
    let aqiScore := jsClamp (50 + aqiZScore * 25)
    let tempScore := jsClamp (50 + tempZScore * 25)
    let humidityScore := jsClamp (50 + humidityZScore * 25)
    (regionId,
      { health_score := jsRound healthScore,
        name := "Region " ++ regionId,
        aqi_score := jsRound aqiScore,
        temperature_score := jsRound tempScore,
        humidity_score := jsRound humidityScore,
        color_code := jsOrDefault (bd.color_codes.lookup regionId) "yellow" })

/-- `getColorStringForScore` (part_003, lines 248-252). -/
def getColorStringForScore (score : ℚ) : String :=
  if score ≥ 70 then "rgb(46, 204, 113)"
  else if score ≥ 40 then "rgb(241, 196, 15)"
  else "rgb(231, 76, 60)"

/-- A longitude/latitude pair, as produced from the drop position. -/
abbrev Point : Type := ℚ × ℚ

/-- One feature of the loaded region GeoJSON: its stable `properties.id`
and the point-in-polygon test `turf.booleanPointInPolygon(point, geometry)`
on its geometry, abstracted as a Boolean-valued membership function. -/
structure RegionFeature where
  id : String
  contains : Point → Bool

/-- One entry of `hiddenAreas` (part_003, line 577): a bounding box of
degrees around the placement, tagged with the placement id so undo can
remove exactly this entry. -/
structure HiddenArea where
  west : ℚ
  south : ℚ
  east : ℚ
  north : ℚ
  placementId : String
deriving DecidableEq

/-- The object passed to `setImpactAnalysis` (part_003, lines 548 and 552). -/
structure ImpactAnalysis where
  title : String
  airQuality : String
  propertyValue : String
  summary : String
deriving DecidableEq

/-- One entry of `history` (part_003, line 621): the pre-drop `cityState`,
the entity ids added by the drop, the hidden area added by the drop
(`addedHiddenArea[0]`, `none` when no area was added), and the pre-drop
`regionalScores`. -/
structure HistoryEntry where
  cityState : List (String × PaletteItem)
  entityIds : List String
  hiddenArea : Option HiddenArea
  regionalScores : List (String × RegionScore)
deriving DecidableEq

/-- The React state of `ChicagoUrbanPlanner` that the drop/undo handlers
read and write.  Rendering-only state (viewer refs, loading flags, the
mock AI score panel key) is omitted. -/
structure PlannerState where
  cityState : List (String × PaletteItem)
  regionalScores : List (String × RegionScore)
  history : List HistoryEntry
  hiddenAreas : List HiddenArea
  impactAnalysis : Option ImpactAnalysis
  selectedRegionId : Option String
  showAiScorePanel : Bool
deriving DecidableEq

/-- `(100 - currentScore) / 100` (part_003, line 543). -/
def qualityMultiplier (currentScore : ℚ) : ℚ := (100 - currentScore) / 100

/-- `item.impactFactor * qualityMultiplier * 5` (part_003, line 544). -/
def scoreIncrease (item : PaletteItem) (currentScore : ℚ) : ℚ :=
  item.impactFactor * qualityMultiplier currentScore * 5

/-- `Math.min(100, currentScore + scoreIncrease)` (part_003, line 545). -/
def newScore (item : PaletteItem) (currentScore : ℚ) : ℚ :=
  min 100 (currentScore + scoreIncrease item currentScore)

/-- The `0.0005` degree half-size of the square hidden area added for
ground placements (part_003, lines 575-577). -/
def hiddenAreaOffset : ℚ := 1/2000

/-- The hidden area added by a drop (part_003, lines 572-579): only the
`trees` and `water_body` items add one, centred on the drop position (the
terrain sampling that the source applies first changes only the height,
not the longitude/latitude). -/
def addedHiddenAreaFor (item : PaletteItem) (dropPoint : Point)
    (placementId : String) : Option HiddenArea :=
  if item.id == "trees" || item.id == "water_body" then
    some { west := dropPoint.1 - hiddenAreaOffset,
           south := dropPoint.2 - hiddenAreaOffset,
           east := dropPoint.1 + hiddenAreaOffset,
           north := dropPoint.2 + hiddenAreaOffset,
           placementId := placementId }
  else none

/-- The history entry pushed by `handleDrop` (part_003, line 621). -/
def dropHistoryEntry (s : PlannerState) (item : PaletteItem) (dropPoint : Point)
    (placementId : String) (entityIds : List String) : HistoryEntry :=
  { cityState := s.cityState,
    entityIds := entityIds,
    hiddenArea := addedHiddenAreaFor item dropPoint placementId,
    regionalScores := s.regionalScores }

/-- `handleDrop` (part_003, lines 512-623), restricted to its effect on the
planner state.  `dropPoint` is the drop position in degrees; `features` is
`regionGeoJson.features`; `placementId` and `parcelId` are the two
`Date.now()`-derived fresh ids; `entityIds` are the ids of the Cesium
entities the drop adds (rendering only, but recorded in history);
`randPct` is the `Math.random()` draw used for the property-value text.
The first region feature containing the drop point (the for-loop with break in the source) is the target; its current score record is read with
`regionalScores[targetRegion.id]`, which in JavaScript throws when the id
has no score entry — that failure case is modelled as `none`.  The
3D-entity placement, terrain sampling and animation parts of the source
touch no scoring state and are not modelled. -/
def handleDrop (s : PlannerState) (item : PaletteItem) (dropPoint : Point)
    (features : List RegionFeature) (placementId parcelId : String)
    (entityIds : List String) (randPct : ℚ) : Option PlannerState :=
  match features.find? fun f => f.contains dropPoint with
  | some targetRegion =>
    match s.regionalScores.lookup targetRegion.id with
    | none => none
    | some rec =>
      let currentScore := rec.health_score
      some
        { cityState := setKey s.cityState parcelId item,
          regionalScores :=
            setKey s.regionalScores targetRegion.id
              { rec with health_score := newScore item currentScore },
          history := s.history ++ [dropHistoryEntry s item dropPoint placementId entityIds],
          hiddenAreas :=
            match addedHiddenAreaFor item dropPoint placementId with
            | some a => s.hiddenAreas ++ [a]
            | none => s.hiddenAreas,
          impactAnalysis := some
            { title := "Impact in " ++ rec.name,
              airQuality := "+" ++ toFixed1 (scoreIncrease item currentScore) ++ " pts",
              propertyValue := "+" ++ toFixed1 (randPct * 5 + 2) ++ "%",
              summary := "New Health Score: " ++ toFixed1 (newScore item currentScore) },
          selectedRegionId := some targetRegion.id,
          showAiScorePanel := true }
  | none =>
    some
      { cityState := setKey s.cityState parcelId item,
        regionalScores := s.regionalScores,
        history := s.history ++ [dropHistoryEntry s item dropPoint placementId entityIds],
        hiddenAreas :=
          match addedHiddenAreaFor item dropPoint placementId with
          | some a => s.hiddenAreas ++ [a]
          | none => s.hiddenAreas,
        impactAnalysis := some
          { title := "No Impact Calculated",
            airQuality := "+0.0 pts",
            propertyValue := "+0.0%",
            summary := "The item was placed outside of a designated analysis region." },
        selectedRegionId := s.selectedRegionId,
        showAiScorePanel := s.showAiScorePanel }

/-- `handleUndo` (part_003, lines 626-656): with an empty history it does
nothing; otherwise it restores the `cityState` and
`regionalScores`, pops the history, removes the hidden area the last drop
added (the Cesium entity removal is rendering only) and clears the impact
message. -/
def handleUndo (s : PlannerState) : PlannerState :=
  match s.history.getLast? with
  | none => s
  | some lastAction =>
    { cityState := lastAction.cityState,
      regionalScores := lastAction.regionalScores,
      history := s.history.dropLast,
      hiddenAreas :=
        match lastAction.hiddenArea with
        | some a => s.hiddenAreas.filter fun ar => ar.placementId != a.placementId
        | none => s.hiddenAreas,
      impactAnalysis := none,
      selectedRegionId := s.selectedRegionId,
      showAiScorePanel := s.showAiScorePanel }

/-- Modelled from the spec: a healthcare facility (spec section 3), a point
location with a positive capacity.  The backend scoring engine that
implements the Gravity Accessibility Model is not present under `src/`
(only the frontend and the deployment documentation are), so the model
below follows the contract of spec section 4.4. -/
structure Facility where
  location : Point
  capacity : ℚ

/-- Squared planar distance between two points (consistent units are
assumed between the cutoff radius and coordinates, per spec section 4.4). -/
def distSq (p q : Point) : ℚ := (p.1 - q.1) ^ 2 + (p.2 - q.2) ^ 2

/-- Modelled from the spec: the per-facility contribution
`capacity / (1 + decay * distance^2)` of spec section 4.4, written over the
squared distance. -/
def contribution (capacity decay dsq : ℚ) : ℚ := capacity / (1 + decay * dsq)

/-- Modelled from the spec: the Gravity Accessibility Model of spec
section 4.4 — the sum of contributions over all facilities within the
cutoff radius of the representative point of the region.  Membership within
the radius is expressed on squared distances (`distSq ≤ cutoff²`), which
for a nonnegative cutoff agrees with `distance ≤ cutoff`. -/
def accessibility (centroid : Point) (facilities : List Facility)
    (cutoff decay : ℚ) : ℚ :=
  ((facilities.filter fun f => decide (distSq centroid f.location ≤ cutoff ^ 2)).map
    fun f => contribution f.capacity decay (distSq centroid f.location)).sum

lemma lookup_setKey_self {α : Type} (m : List (String × α)) (k : String) (v : α) :
    (setKey m k v).lookup k = some v := by
  induction m with
  | nil => simp [setKey, List.lookup]
  | cons p rest ih =>
    obtain ⟨a, b⟩ := p
    simp only [setKey]
    by_cases h : a = k
    · rw [if_pos h]
      simp [List.lookup]
    · rw [if_neg h]
      have hb : (k == a) = false := beq_eq_false_iff_ne.mpr (Ne.symm h)
      simp [List.lookup, hb, ih]

lemma lookup_setKey_ne {α : Type} (m : List (String × α)) (k k' : String) (v : α)
    (h : k' ≠ k) : (setKey m k v).lookup k' = m.lookup k' := by
  have hb : (k' == k) = false := beq_eq_false_iff_ne.mpr h
  induction m with
  | nil => simp [setKey, List.lookup, hb]
  | cons p rest ih =>
    obtain ⟨a, b⟩ := p
    simp only [setKey]
    by_cases hp : a = k
    · subst hp
      simp [List.lookup, hb]
    · rw [if_neg hp]
      cases hk : (k' == a) <;> simp [List.lookup, hk, ih]

lemma jsClamp_nonneg (x : ℚ) : 0 ≤ jsClamp x := le_max_left 0 _

lemma jsClamp_le (x : ℚ) : jsClamp x ≤ 100 :=
  max_le (by norm_num) (min_le_left 100 x)

lemma jsRound_nonneg {x : ℚ} (h : 0 ≤ x) : 0 ≤ jsRound x := by
  unfold jsRound
  have : (0 : ℤ) ≤ ⌊x + 1/2⌋ := Int.floor_nonneg.mpr (by linarith)
  exact_mod_cast this

lemma jsRound_le_of_le {x : ℚ} (h : x ≤ 100) : jsRound x ≤ 100 := by
  unfold jsRound
  have h1 : (⌊x + 1/2⌋ : ℚ) ≤ x + 1/2 := Int.floor_le _
  have h2 : (⌊x + 1/2⌋ : ℚ) < 101 := by linarith
  have h3 : ⌊x + 1/2⌋ < (101 : ℤ) := by exact_mod_cast h2
  have h4 : ⌊x + 1/2⌋ ≤ (100 : ℤ) := by omega
  exact_mod_cast h4

lemma jsRound_jsClamp_bounds (x : ℚ) :
    0 ≤ jsRound (jsClamp x) ∧ jsRound (jsClamp x) ≤ 100 :=
  ⟨jsRound_nonneg (jsClamp_nonneg x), jsRound_le_of_le (jsClamp_le x)⟩

lemma scoreIncrease_nonneg {item : PaletteItem} {c : ℚ}
    (hF : 0 ≤ item.impactFactor) (hc : c ≤ 100) :
    0 ≤ scoreIncrease item c := by
  unfold scoreIncrease qualityMultiplier
  have h1 : 0 ≤ (100 - c) / 100 := by linarith
  exact mul_nonneg (mul_nonneg hF h1) (by norm_num)

lemma newScore_bounds {item : PaletteItem} {c : ℚ}
    (hF : 0 ≤ item.impactFactor) (h0 : 0 ≤ c) (h1 : c ≤ 100) :
    0 ≤ newScore item c ∧ newScore item c ≤ 100 := by
  constructor
  · exact le_min (by norm_num) (by linarith [scoreIncrease_nonneg hF h1])
  · exact min_le_left _ _

lemma newScore_strict_increase {item : PaletteItem} {c : ℚ}
    (hF : 0 < item.impactFactor) (h1 : c < 100) :
    c < newScore item c := by
  have hinc : 0 < scoreIncrease item c := by
    unfold scoreIncrease qualityMultiplier
    have h2 : 0 < (100 - c) / 100 := by linarith
    exact mul_pos (mul_pos hF h2) (by norm_num)
  exact lt_min h1 (by linarith)

/-- A baseline score record used in the concrete scenarios below. -/
def exBaseRec : RegionScore :=
  { health_score := 70, name := "Region r1", aqi_score := 50,
    temperature_score := 50, humidity_score := 50, color_code := "green" }

/-- The record of a second region, untouched by the drops below. -/
def exOtherRec : RegionScore :=
  { health_score := 30, name := "Region r2", aqi_score := 40,
    temperature_score := 45, humidity_score := 55, color_code := "red" }

/-- A concrete planner state with two scored regions. -/
def exState : PlannerState :=
  { cityState := [],
    regionalScores := [("r1", exBaseRec), ("r2", exOtherRec)],
    history := [],
    hiddenAreas := [],
    impactAnalysis := none,
    selectedRegionId := none,
    showAiScorePanel := false }

/-- A concrete region set: one region, `r1`, whose polygon is the unit
square of degree coordinates. -/
def exFeatures : List RegionFeature :=
  [{ id := "r1",
     contains := fun p => decide (0 ≤ p.1 ∧ p.1 ≤ 1 ∧ 0 ≤ p.2 ∧ p.2 ≤ 1) }]

/-- A concrete backend payload whose `aqi` map has no entry for `r1`. -/
def exBackendMissing : BackendData :=
  { feature_scores := { aqi := [], temperature := [("r1", 1)], water_vapour := [] },
    overall_scores := [("r1", 0)],
    color_codes := [] }

/-- The same payload with the `aqi` z-score for `r1` explicitly `0`. -/
def exBackendZero : BackendData :=
  { feature_scores := { aqi := [("r1", 0)], temperature := [("r1", 1)], water_vapour := [] },
    overall_scores := [("r1", 0)],
    color_codes := [] }

/-- The transformed entry used to instantiate the range theorem below. -/
def exTransformedEntry : String × RegionScore :=
  ("r1", { health_score := 50, name := "Region r1", aqi_score := 50,
           temperature_score := 75, humidity_score := 50,
           color_code := "yellow" })

/-- C10: the score-to-color classification is total and agrees with the
displayed legend — for every numeric score, `getColorStringForScore`
returns green exactly when `score ≥ 70`, yellow exactly when
`40 ≤ score < 70`, and red exactly when `score < 40`, so every score
receives exactly one of the three legend colors. -/
theorem getColorStringForScore_matches_legend (score : ℚ) :
    (getColorStringForScore score = "rgb(46, 204, 113)" ↔ 70 ≤ score) ∧
    (getColorStringForScore score = "rgb(241, 196, 15)" ↔ 40 ≤ score ∧ score < 70) ∧
    (getColorStringForScore score = "rgb(231, 76, 60)" ↔ score < 40) := by
  unfold getColorStringForScore
  split_ifs with h1 h2
  · exact ⟨⟨fun _ => h1, fun _ => rfl⟩,
      ⟨fun he => absurd he (by decide), fun hc => absurd h1 (not_le.mpr hc.2)⟩,
      ⟨fun he => absurd he (by decide), fun hc => absurd h1 (not_le.mpr (by linarith))⟩⟩
  · exact ⟨⟨fun he => absurd he (by decide), fun hc => absurd hc h1⟩,
      ⟨fun _ => ⟨h2, not_le.mp h1⟩, fun _ => rfl⟩,
      ⟨fun he => absurd he (by decide), fun hc => absurd h2 (not_le.mpr hc)⟩⟩
  · exact ⟨⟨fun he => absurd he (by decide), fun hc => absurd hc h1⟩,
      ⟨fun he => absurd he (by decide), fun hc => absurd hc.1 h2⟩,
      ⟨fun _ => not_le.mp h2, fun _ => rfl⟩⟩

/-- C3: every displayed health score lies in `[0, 100]` —
`transformBackendData` maps every input z-score through the fixed linear
map `50 + 25 * z` clamped to `[0, 100]` (for all four displayed scores of
every produced entry), and the intervention update `newScore` of every
palette item maps a current score in `[0, 100]` back into `[0, 100]`. -/
theorem displayed_scores_within_bounds :
    (∀ (bd : BackendData) (entry : String × RegionScore),
        entry ∈ transformBackendData bd →
        (0 ≤ entry.2.health_score ∧ entry.2.health_score ≤ 100) ∧
        (0 ≤ entry.2.aqi_score ∧ entry.2.aqi_score ≤ 100) ∧
        (0 ≤ entry.2.temperature_score ∧ entry.2.temperature_score ≤ 100) ∧
        (0 ≤ entry.2.humidity_score ∧ entry.2.humidity_score ≤ 100)) ∧
    (∀ item ∈ PALETTE_ITEMS, ∀ c : ℚ, 0 ≤ c → c ≤ 100 →
        0 ≤ newScore item c ∧ newScore item c ≤ 100) := by
  constructor
  · intro bd entry hmem
    unfold transformBackendData at hmem
    obtain ⟨p, hp, rfl⟩ := List.mem_map.mp hmem
    exact ⟨jsRound_jsClamp_bounds _, jsRound_jsClamp_bounds _,
      jsRound_jsClamp_bounds _, jsRound_jsClamp_bounds _⟩
  · intro item hitem c h0 h1
    have hF : 0 ≤ item.impactFactor := by
      simp only [PALETTE_ITEMS] at hitem
      fin_cases hitem <;> norm_num [treesItem, coolRoofItem, waterBodyItem]
    exact newScore_bounds hF h0 h1

/-- Witness for C3 at a concrete backend payload and a concrete update. -/
theorem displayed_scores_within_bounds_witness :
    ((0 ≤ exTransformedEntry.2.health_score ∧ exTransformedEntry.2.health_score ≤ 100) ∧
     (0 ≤ exTransformedEntry.2.aqi_score ∧ exTransformedEntry.2.aqi_score ≤ 100) ∧
     (0 ≤ exTransformedEntry.2.temperature_score ∧ exTransformedEntry.2.temperature_score ≤ 100) ∧
     (0 ≤ exTransformedEntry.2.humidity_score ∧ exTransformedEntry.2.humidity_score ≤ 100)) ∧
    (0 ≤ newScore treesItem 70 ∧ newScore treesItem 70 ≤ 100) :=
  ⟨displayed_scores_within_bounds.1 exBackendZero exTransformedEntry
      (by norm_num [transformBackendData, exBackendZero, exTransformedEntry,
        jsClamp, jsRound, jsOrDefault, List.lookup]; decide),
   displayed_scores_within_bounds.2 treesItem (List.Mem.head _) 70
      (by norm_num) (by norm_num)⟩

/-- C4, counterexample: the score breakdown is not a deterministic function
of the input state — the `aesthetics` category incorporates a
`Math.random()` draw, so two evaluations of `mockAIScoring` on the same
(empty) city state can differ. -/
theorem mockAIScoring_random_aesthetics_cx :
    mockAIScoring 0 [] ≠ mockAIScoring (1/2) [] := by
  norm_num [mockAIScoring, AIScore.mk.injEq]

/-- C4, amended: every component of the `mockAIScoring` breakdown except
the `aesthetics` category (the overall score, the sustainability,
livability and efficiency categories, and the summary text) is a pure
deterministic function of the city state, independent of the random
draw. -/
theorem mockAIScoring_deterministic_components (r1 r2 : ℚ)
    (state : List (String × PaletteItem)) :
    (mockAIScoring r1 state).overall_score = (mockAIScoring r2 state).overall_score ∧
    (mockAIScoring r1 state).sustainability = (mockAIScoring r2 state).sustainability ∧
    (mockAIScoring r1 state).livability = (mockAIScoring r2 state).livability ∧
    (mockAIScoring r1 state).efficiency = (mockAIScoring r2 state).efficiency ∧
    (mockAIScoring r1 state).summary = (mockAIScoring r2 state).summary :=
  ⟨rfl, rfl, rfl, rfl, rfl⟩

/-- C2, counterexample: a region whose `aqi` z-score is missing from the
backend mapping does not get an undefined transformed score — the output
is identical to the output for a genuine `aqi` z-score of `0`, and the
`aqi_score` of the region is the defined neutral value `50`; the composite
`health_score` is likewise defined. -/
theorem transformBackendData_missing_equals_zero_cx :
    transformBackendData exBackendMissing = transformBackendData exBackendZero ∧
    (transformBackendData exBackendMissing).lookup "r1" =
      some { health_score := 50, name := "Region r1", aqi_score := 50,
             temperature_score := 75, humidity_score := 50,
             color_code := "yellow" } := by
  constructor
  · norm_num [transformBackendData, exBackendMissing, exBackendZero,
      jsClamp, jsRound, jsOrDefault, List.lookup]
  · norm_num [transformBackendData, exBackendMissing,
      jsClamp, jsRound, jsOrDefault, List.lookup]
    decide

/-- C2, amended: for every region key of `overall_scores` whose `aqi`
z-score is missing from `feature_scores.aqi`, `transformBackendData`
silently substitutes the neutral default `0` (the JavaScript `|| 0`),
producing the defined midpoint display value `50` for `aqi_score` instead
of propagating an undefined marker. -/
theorem transformBackendData_missing_aqi_score_is_fifty
    (bd : BackendData) (p : String × ℚ) (hmem : p ∈ bd.overall_scores)
    (hlook : bd.feature_scores.aqi.lookup p.1 = none) :
    ∃ rec : RegionScore, (p.1, rec) ∈ transformBackendData bd ∧ rec.aqi_score = 50 := by
  refine ⟨_, List.mem_map_of_mem _ hmem, ?_⟩
  show jsRound (jsClamp (50 + (bd.feature_scores.aqi.lookup p.1).getD 0 * 25)) = 50
  rw [hlook]
  norm_num [jsClamp, jsRound]

/-- Witness for the amended C2 at a concrete payload missing `aqi`. -/
theorem transformBackendData_missing_aqi_score_is_fifty_witness :
    ∃ rec : RegionScore,
      ("r1", rec) ∈ transformBackendData exBackendMissing ∧ rec.aqi_score = 50 :=
  transformBackendData_missing_aqi_score_is_fifty exBackendMissing ("r1", 0)
    (List.Mem.head _) rfl

/-- C7: the Gravity Accessibility Model (modelled from spec section 4.4,
as the implementing backend is absent from `src/`) returns exactly `0` —
a defined value — for a region with no facility within the cutoff radius
of its representative point, and for fixed positive capacity and decay
the per-facility contribution `capacity / (1 + decay * distance^2)` is
strictly decreasing as the distance increases. -/
theorem gravity_model_zero_when_isolated_and_decreasing :
    (∀ (centroid : Point) (facilities : List Facility) (cutoff decay : ℚ),
      (∀ f ∈ facilities, ¬ distSq centroid f.location ≤ cutoff ^ 2) →
      accessibility centroid facilities cutoff decay = 0) ∧
    (∀ capacity decay d1 d2 : ℚ, 0 < capacity → 0 < decay → 0 ≤ d1 → d1 < d2 →
      contribution capacity decay (d2 ^ 2) < contribution capacity decay (d1 ^ 2)) := by
  constructor
  · intro centroid facilities cutoff decay h
    unfold accessibility
    have hnil :
        facilities.filter (fun f => decide (distSq centroid f.location ≤ cutoff ^ 2)) = [] := by
      rw [List.filter_eq_nil_iff]
      intro a ha
      simpa using h a ha
    rw [hnil]
    rfl
  · intro capacity decay d1 d2 hcap hdecay hd1 hlt
    unfold contribution
    have hb1 : 0 < 1 + decay * d1 ^ 2 := by nlinarith
    have hsq : d1 ^ 2 < d2 ^ 2 := by nlinarith
    have hb2 : 1 + decay * d1 ^ 2 < 1 + decay * d2 ^ 2 := by
      have := mul_lt_mul_of_pos_left hsq hdecay
      linarith
    exact div_lt_div_of_pos_left hcap hb1 hb2

/-- Witness for C7: a region with one clinic far outside the radius, and
two concrete distances. -/
theorem gravity_model_zero_when_isolated_and_decreasing_witness :
    accessibility (0, 0) [{ location := (10, 0), capacity := 5 }] 3 1 = 0 ∧
    contribution 5 1 ((2 : ℚ) ^ 2) < contribution 5 1 ((1 : ℚ) ^ 2) :=
  ⟨gravity_model_zero_when_isolated_and_decreasing.1 (0, 0)
      [{ location := (10, 0), capacity := 5 }] 3 1
      (by intro f hf; fin_cases hf; norm_num [distSq]),
   gravity_model_zero_when_isolated_and_decreasing.2 5 1 1 2
      (by norm_num) (by norm_num) (by norm_num) (by norm_num)⟩

/-- C1, counterexample: a drop of the Add Park item into region `r1` of a
concrete two-region state changes the live per-region score mapping —
re-reading `regionalScores` for `r1` after the simulated intervention does
not yield the score that held before it (the drop is persisted, not run on
a discarded shadow copy). -/
theorem handleDrop_updates_live_scores_cx :
    ((handleDrop exState treesItem (0, 0) exFeatures "p1" "c1" [] 0).map
        fun s => s.regionalScores.lookup "r1") ≠
      some (exState.regionalScores.lookup "r1") := by
  norm_num [handleDrop, exState, exFeatures, exBaseRec, exOtherRec, treesItem,
    newScore, scoreIncrease, qualityMultiplier, setKey, List.find?, List.lookup,
    RegionScore.mk.injEq]

/-- C1, amended: the drop updates the live regional score mapping, but it
never alters the pre-drop mapping value itself — the history entry that
`handleDrop` appends stores exactly the per-region scores that held before
the simulation, so the baseline scores remain recoverable unchanged. -/
theorem handleDrop_snapshots_baseline_scores (s : PlannerState)
    (item : PaletteItem) (dropPoint : Point) (features : List RegionFeature)
    (placementId parcelId : String) (entityIds : List String) (randPct : ℚ)
    (s' : PlannerState)
    (h : handleDrop s item dropPoint features placementId parcelId entityIds randPct =
      some s') :
    (s'.history.getLast?).map HistoryEntry.regionalScores = some s.regionalScores := by
  unfold handleDrop at h
  cases hfind : features.find? fun f => f.contains dropPoint with
  | none =>
    rw [hfind] at h
    obtain rfl := Option.some.inj h
    simp [dropHistoryEntry, List.getLast?_concat]
  | some targetRegion =>
    rw [hfind] at h
    cases hlook : s.regionalScores.lookup targetRegion.id with
    | none =>
      simp only [hlook] at h
      exact Option.noConfusion h
    | some rec =>
      simp only [hlook] at h
      obtain rfl := Option.some.inj h
      simp [dropHistoryEntry, List.getLast?_concat]

/-- Witness for the amended C1 at a concrete drop. -/
theorem handleDrop_snapshots_baseline_scores_witness :
    ∃ s', handleDrop exState treesItem (0, 0) exFeatures "p4" "c4" [] 0 = some s' ∧
      (s'.history.getLast?).map HistoryEntry.regionalScores =
        some exState.regionalScores := by
  refine ⟨_, rfl, ?_⟩
  exact handleDrop_snapshots_baseline_scores exState treesItem (0, 0) exFeatures
    "p4" "c4" [] 0 _ rfl

/-- C5: dropping an item with a positive impact factor (such as the
vegetation-adding Add Park item) into a region whose current composite
score is strictly below 100 strictly increases the score of that region over
its baseline. -/
theorem vegetation_drop_strictly_increases_score (s : PlannerState)
    (item : PaletteItem) (dropPoint : Point) (features : List RegionFeature)
    (placementId parcelId : String) (entityIds : List String) (randPct : ℚ)
    (s' : PlannerState) (f : RegionFeature) (rec : RegionScore)
    (h : handleDrop s item dropPoint features placementId parcelId entityIds randPct =
      some s')
    (hfind : (features.find? fun fe => fe.contains dropPoint) = some f)
    (hlook : s.regionalScores.lookup f.id = some rec)
    (_hveg : item.type = "vegetation")
    (hlt : rec.health_score < 100)
    (hpos : 0 < item.impactFactor) :
    ∃ rec' : RegionScore, s'.regionalScores.lookup f.id = some rec' ∧
      rec.health_score < rec'.health_score := by
  unfold handleDrop at h
  rw [hfind] at h
  simp only [hlook] at h
  obtain rfl := Option.some.inj h
  refine ⟨_, lookup_setKey_self _ _ _, ?_⟩
  exact newScore_strict_increase hpos hlt

/-- Witness for C5: the Add Park drop into region `r1` at baseline 70. -/
theorem vegetation_drop_strictly_increases_score_witness :
    ∃ s' : PlannerState, ∃ rec' : RegionScore,
      handleDrop exState treesItem (0, 0) exFeatures "p5" "c5" [] 0 = some s' ∧
      s'.regionalScores.lookup "r1" = some rec' ∧
      exBaseRec.health_score < rec'.health_score := by
  obtain ⟨rec', h1, h2⟩ := vegetation_drop_strictly_increases_score exState treesItem
    (0, 0) exFeatures "p5" "c5" [] 0 _ _ exBaseRec rfl rfl rfl rfl
    (by norm_num [exBaseRec]) (by norm_num [treesItem])
  exact ⟨_, rec', rfl, h1, h2⟩

/-- C6: a drop whose point lies inside no region of the loaded region set
is not an error — `handleDrop` still succeeds, reports an impact message
with the zero aggregate delta text `+0.0 pts`, and leaves the score record
of every region unchanged. -/
theorem drop_outside_regions_reports_zero_delta (s : PlannerState)
    (item : PaletteItem) (dropPoint : Point) (features : List RegionFeature)
    (placementId parcelId : String) (entityIds : List String) (randPct : ℚ)
    (hfind : (features.find? fun f => f.contains dropPoint) = none) :
    ((handleDrop s item dropPoint features placementId parcelId entityIds randPct).map
        fun s' => s'.regionalScores) = some s.regionalScores ∧
    ((handleDrop s item dropPoint features placementId parcelId entityIds randPct).map
        fun s' => s'.impactAnalysis) = some (some
          { title := "No Impact Calculated",
            airQuality := "+0.0 pts",
            propertyValue := "+0.0%",
            summary := "The item was placed outside of a designated analysis region." }) := by
  unfold handleDrop
  rw [hfind]
  exact ⟨rfl, rfl⟩

/-- Witness for C6: a drop far outside the single loaded region. -/
theorem drop_outside_regions_reports_zero_delta_witness :
    ((handleDrop exState waterBodyItem (5, 5) exFeatures "p6" "c6" [] 0).map
        fun s' => s'.regionalScores) = some exState.regionalScores ∧
    ((handleDrop exState waterBodyItem (5, 5) exFeatures "p6" "c6" [] 0).map
        fun s' => s'.impactAnalysis) = some (some
          { title := "No Impact Calculated",
            airQuality := "+0.0 pts",
            propertyValue := "+0.0%",
            summary := "The item was placed outside of a designated analysis region." }) :=
  drop_outside_regions_reports_zero_delta exState waterBodyItem (5, 5) exFeatures
    "p6" "c6" [] 0 rfl

/-- C8: undo exactly inverts a drop — for every planner state, a
successful `handleDrop` followed by `handleUndo` restores `cityState` and
`regionalScores` to exactly their pre-drop values and leaves `history`
unchanged. -/
theorem undo_inverts_drop (s : PlannerState) (item : PaletteItem)
    (dropPoint : Point) (features : List RegionFeature)
    (placementId parcelId : String) (entityIds : List String) (randPct : ℚ)
    (s' : PlannerState)
    (h : handleDrop s item dropPoint features placementId parcelId entityIds randPct =
      some s') :
    (handleUndo s').cityState = s.cityState ∧
    (handleUndo s').regionalScores = s.regionalScores ∧
    (handleUndo s').history = s.history := by
  unfold handleDrop at h
  cases hfind : features.find? fun f => f.contains dropPoint with
  | none =>
    rw [hfind] at h
    obtain rfl := Option.some.inj h
    simp [handleUndo, dropHistoryEntry, List.getLast?_concat, List.dropLast_concat]
  | some targetRegion =>
    rw [hfind] at h
    cases hlook : s.regionalScores.lookup targetRegion.id with
    | none =>
      simp only [hlook] at h
      exact Option.noConfusion h
    | some rec =>
      simp only [hlook] at h
      obtain rfl := Option.some.inj h
      simp [handleUndo, dropHistoryEntry, List.getLast?_concat, List.dropLast_concat]

/-- Witness for C8 at a concrete drop into region `r1`. -/
theorem undo_inverts_drop_witness :
    ∃ s', handleDrop exState treesItem (0, 0) exFeatures "p8" "c8" [] 0 = some s' ∧
      (handleUndo s').cityState = exState.cityState ∧
      (handleUndo s').regionalScores = exState.regionalScores ∧
      (handleUndo s').history = exState.history := by
  refine ⟨_, rfl, ?_⟩
  exact undo_inverts_drop exState treesItem (0, 0) exFeatures "p8" "c8" [] 0 _ rfl

/-- C9: a drop whose point lies inside a region modifies only that single
entry of that single region in the regional score mapping — every other region
identifier keeps exactly its previous score record (health score and all
sub-scores). -/
theorem drop_modifies_only_target_region (s : PlannerState) (item : PaletteItem)
    (dropPoint : Point) (features : List RegionFeature)
    (placementId parcelId : String) (entityIds : List String) (randPct : ℚ)
    (s' : PlannerState) (f : RegionFeature)
    (h : handleDrop s item dropPoint features placementId parcelId entityIds randPct =
      some s')
    (hfind : (features.find? fun fe => fe.contains dropPoint) = some f)
    (r : String) (hne : r ≠ f.id) :
    s'.regionalScores.lookup r = s.regionalScores.lookup r := by
  unfold handleDrop at h
  rw [hfind] at h
  cases hlook : s.regionalScores.lookup f.id with
  | none =>
    simp only [hlook] at h
    exact Option.noConfusion h
  | some rec =>
    simp only [hlook] at h
    obtain rfl := Option.some.inj h
    exact lookup_setKey_ne _ _ _ _ hne

/-- Witness for C9: the Add Park drop into `r1` leaves `r2` untouched. -/
theorem drop_modifies_only_target_region_witness :
    ∃ s', handleDrop exState treesItem (0, 0) exFeatures "p9" "c9" [] 0 = some s' ∧
      s'.regionalScores.lookup "r2" = exState.regionalScores.lookup "r2" := by
  refine ⟨_, rfl, ?_⟩
  exact drop_modifies_only_target_region exState treesItem (0, 0) exFeatures
    "p9" "c9" [] 0 _ _ rfl rfl "r2" (by decide)
